import Mathlib

/-!
Verification development for the Food-Tracker backend.

This file gives a shallow embedding of the core of the repository —
the barcode lookup service (`app/services/barcode_service.py`), the
barcode endpoint (`app/api/v1/endpoints/barcode.py`), the recipe
search service (`app/services/spoonacular_service.py`), and the
grocery CRUD/sync endpoints (`app/api/v1/endpoints/groceries.py`
with the schemas of `app/api/v1/schemas/grocery.py` and the model of
`app/db/models/grocery.py`) — and proves the testable properties of
the specification against it.

Modelling conventions:
* datetimes are modelled as `Nat` instants; floats as `ℚ`;
* the Redis cache is a function from keys to an optional
  `(expiry, value)` pair; `setex` writes `now + ttl` as the expiry;
* I/O failure points (cache read/write, upstream HTTP) are explicit
  oracle parameters of the embedded functions;
* Python `str.strip`, `str.lower` and `str.isdigit` are modelled over
  ASCII (`pyStrip`, `strLower`, `Char.isDigit`) — the barcode digits
  and the keyword table are ASCII;
* exceptions that escape a handler are `Except.error ()`;
* the database is a list of rows; the session plumbing
  (`app/db/database.py` is not in the sources) is modelled from the
  spec: statements in one call see earlier statements of the same
  call, and a failed commit leaves the store unchanged (the spec's
  transactional boundary around the sync steps).
-/

namespace FoodTracker

/-! ## Barcode service: category mapping (`BarcodeService._map_category`) -/

/-- `isPrefOf needle hay`: `needle` is a leading segment of `hay`. -/
def isPrefOf : List Char → List Char → Bool
  | [], _ => true
  | _ :: _, [] => false
  | a :: as, b :: bs => a == b && isPrefOf as bs

/-- `hasSub needle hay`: `needle` occurs contiguously inside `hay`
(the Python `needle in hay` substring test). -/
def hasSub (needle : List Char) : List Char → Bool
  | [] => needle.isEmpty
  | b :: bs => isPrefOf needle (b :: bs) || hasSub needle bs

/-- Python `keyword in tag_lower` on strings. -/
def strHasSub (hay needle : String) : Bool :=
  hasSub needle.data hay.data

/-- Python `str.lower` (ASCII; the keyword table is ASCII). -/
def strLower (s : String) : String :=
  String.mk (s.data.map Char.toLower)

/-- Python `str.strip()` (ASCII whitespace): drop whitespace from both
ends of the string. -/
def pyStrip (s : String) : String :=
  String.mk
    (((s.data.dropWhile Char.isWhitespace).reverse.dropWhile
        Char.isWhitespace).reverse)

/-- The keyword → category table of `_map_category`, in the order of the
Python dict literal (Python dicts preserve insertion order). -/
def categoryMapping : List (String × String) :=
  [("dairy", "Dairy"), ("milk", "Dairy"), ("cheese", "Dairy"),
   ("yogurt", "Dairy"), ("butter", "Dairy"),
   ("meat", "Meat"), ("beef", "Meat"), ("pork", "Meat"),
   ("chicken", "Meat"), ("turkey", "Meat"), ("sausage", "Meat"),
   ("fish", "Seafood"), ("seafood", "Seafood"), ("shrimp", "Seafood"),
   ("tuna", "Seafood"), ("salmon", "Seafood"),
   ("fruit", "Produce"), ("vegetable", "Produce"), ("salad", "Produce"),
   ("bread", "Bakery"), ("pastry", "Bakery"), ("cake", "Bakery"),
   ("frozen", "Frozen"), ("ice-cream", "Frozen"),
   ("beverage", "Beverages"), ("drink", "Beverages"), ("juice", "Beverages"),
   ("water", "Beverages"), ("soda", "Beverages"), ("coffee", "Beverages"),
   ("tea", "Beverages"),
   ("sauce", "Condiments"), ("condiment", "Condiments"),
   ("ketchup", "Condiments"), ("mustard", "Condiments"),
   ("mayonnaise", "Condiments"),
   ("snack", "Snacks"), ("chip", "Snacks"), ("cookie", "Snacks"),
   ("cracker", "Snacks"), ("candy", "Snacks"), ("chocolate", "Snacks"),
   ("cereal", "Pantry"), ("pasta", "Pantry"), ("rice", "Pantry"),
   ("canned", "Pantry"), ("flour", "Pantry"), ("sugar", "Pantry"),
   ("oil", "Pantry")]

/-- `BarcodeService._map_category`: scan the tags in order; for the first
tag whose lowercase form contains a keyword of the table, return that
keyword's category (keywords tried in table order); else `"Other"`. -/
def mapCategory : List String → String
  | [] => "Other"
  | t :: ts =>
    match categoryMapping.find? (fun p => strHasSub (strLower t) p.1) with
    | some p => p.2
    | none => mapCategory ts

example : mapCategory ["en:yogurts", "en:dairy"] = "Dairy" := by decide
example : mapCategory ["en:unknown-thing"] = "Other" := by decide

/-! ## Barcode service: product parsing and upstream query -/

/-- The upstream `product` JSON object, with the fields
`_parse_product` reads via `dict.get` (absent field = `none`). -/
structure OffProduct where
  product_name : Option String
  brands : Option String
  categories : Option String
  categories_tags : Option (List String)
  quantity : Option String
  image_front_url : Option String
  ingredients_text : Option String
  nutriscore_grade : Option String
deriving DecidableEq

/-- The empty JSON object `{}` used as the default for `data.get("product", {})`. -/
def offProductEmpty : OffProduct :=
  ⟨none, none, none, none, none, none, none, none⟩

/-- The top-level Open Food Facts response body. -/
structure OffData where
  status : Option Int
  product : Option OffProduct
deriving DecidableEq

/-- The normalized product dict built by `BarcodeService._parse_product`. -/
structure Product where
  barcode : String
  name : String
  brand : String
  categories : String
  suggested_category : String
  quantity_string : String
  image_url : String
  ingredients_text : String
  nutriscore_grade : String
deriving DecidableEq

/-- `BarcodeService._parse_product`: a blank (empty after strip) or
missing `product_name` yields `None`; otherwise build the response
dict, defaulting every other field to the empty string. -/
def parseProduct (p : OffProduct) (barcode : String) : Option Product :=
  let name := pyStrip (p.product_name.getD "")
  if name = "" then none
  else some
    { barcode := barcode
      name := name
      brand := p.brands.getD ""
      categories := p.categories.getD ""
      suggested_category := mapCategory (p.categories_tags.getD [])
      quantity_string := p.quantity.getD ""
      image_url := p.image_front_url.getD ""
      ingredients_text := p.ingredients_text.getD ""
      nutriscore_grade := p.nutriscore_grade.getD "" }

/-- Outcome of the upstream HTTP GET: a transport error (raising
`httpx.HTTPError`), or a response with a status code and a payload;
`payload = none` models a body that is not valid JSON, on which
`response.json()` raises. -/
inductive Upstream where
  | netError : Upstream
  | resp : Nat → Option OffData → Upstream

/-- `BarcodeService._query_open_food_facts`. Only the transport call is
inside the `try/except httpx.HTTPError`; `response.json()` runs outside
it, so a malformed body raises (modelled by `.error ()`). A transport
error or a non-200 status returns `None`; so does a response whose
`status` flag is not `1` or whose product fails to parse. -/
def queryOpenFoodFacts (u : Upstream) (barcode : String) :
    Except Unit (Option Product) :=
  match u with
  | .netError => .ok none
  | .resp statusCode payload =>
    if statusCode ≠ 200 then .ok none
    else
      match payload with
      | none => .error ()
      | some data =>
        if data.status ≠ some 1 then .ok none
        else .ok (parseProduct (data.product.getD offProductEmpty) barcode)

/-! ## Barcode service: Redis cache and `lookup` -/

/-- The Redis store as seen by the barcode service: each key holds an
expiry instant and either a cached product (`some p`) or the negative
marker `json.dumps(None)` (`none`). -/
def Cache : Type := String → Option (Nat × Option Product)

/-- The cache with no entries. -/
def emptyCache : Cache := fun _ => none

/-- Redis `GET` at instant `now`: an entry is returned while unexpired. -/
def cacheGet (c : Cache) (now : Nat) (k : String) : Option (Option Product) :=
  match c k with
  | none => none
  | some (expiry, v) => if now < expiry then some v else none

/-- Redis `SETEX key ttl value` at instant `now`. -/
def setex (c : Cache) (k : String) (ttl : Nat) (now : Nat) (v : Option Product) :
    Cache :=
  fun k2 => if k2 = k then some (now + ttl, v) else c k2

/-- Steps 2–3 of `BarcodeService.lookup`: query Open Food Facts, then
cache the outcome — 7 days (604800 s) for a hit, 1 hour (3600 s) for a
negative marker — swallowing any cache-write failure (`writeFail`). -/
def fetchAndCache (writeFail : Bool) (u : Upstream) (c : Cache) (now : Nat)
    (barcode : String) : Except Unit (Option Product × Cache) :=
  match queryOpenFoodFacts u barcode with
  | .error e => .error e
  | .ok product =>
    let c2 :=
      if writeFail then c
      else
        match product with
        | some p => setex c ("barcode:" ++ barcode) 604800 now (some p)
        | none => setex c ("barcode:" ++ barcode) 3600 now none
    .ok (product, c2)

/-- `BarcodeService.lookup`: read the cache under a `try` whose failure
(`readFail`, covering connectivity and `json.loads` errors alike) falls
through to the upstream query; a cached value — the negative marker
included — is returned as is. -/
def serviceLookup (readFail writeFail : Bool) (u : Upstream) (c : Cache)
    (now : Nat) (barcode : String) : Except Unit (Option Product × Cache) :=
  match (if readFail then none else cacheGet c now ("barcode:" ++ barcode)) with
  | some v => .ok (v, c)
  | none => fetchAndCache writeFail u c now barcode

/-! ## Barcode endpoint (`lookup_barcode`) -/

/-- What the HTTP layer returns for a barcode lookup. -/
inductive BarcodeOutcome where
  | badRequest : BarcodeOutcome
  | notFound : BarcodeOutcome
  | ok : Product → BarcodeOutcome
  | serverError : BarcodeOutcome
deriving DecidableEq

/-- The endpoint's format check on the *cleaned* input:
`cleaned.isdigit() and len(cleaned) in (8, 12, 13, 14)`. -/
def validBarcode (s : String) : Bool :=
  s.data.all Char.isDigit &&
    (s.length == 8 || s.length == 12 || s.length == 13 || s.length == 14)

/-- The barcode-pattern of the specification,
`^\d{8}$|^\d{12}$|^\d{13}$|^\d{14}$`, applied to the raw input
(all-digit and of length exactly 8, 12, 13 or 14). -/
def specBarcodePattern (s : String) : Bool :=
  s.data.all Char.isDigit &&
    (s.length == 8 || s.length == 12 || s.length == 13 || s.length == 14)

/-- `lookup_barcode` of `endpoints/barcode.py`: strip the path input,
reject on the format check with 400, run the service lookup, turn an
empty result into 404, and an escaped exception into a 500. -/
def lookupBarcode (readFail writeFail : Bool) (u : Upstream) (c : Cache)
    (now : Nat) (raw : String) : BarcodeOutcome × Cache :=
  let cleaned := pyStrip raw
  if !validBarcode cleaned then (.badRequest, c)
  else
    match serviceLookup readFail writeFail u c now cleaned with
    | .error _ => (.serverError, c)
    | .ok (none, c2) => (.notFound, c2)
    | .ok (some p, c2) =>
      if p.name = "" then (.notFound, c2) else (.ok p, c2)

example :
    (lookupBarcode false false Upstream.netError emptyCache 0 " 12345678").1 =
      BarcodeOutcome.notFound := by rfl
example : specBarcodePattern " 12345678" = false := by decide

/-! ## Spoonacular recipe search (`SpoonacularService.search_recipes`) -/

/-- One upstream recipe record, with the fields `_parse_recipe_summary`
reads via `dict.get`. -/
structure RecipeSrc where
  id : Option Int
  title : Option String
  image : Option String
  readyInMinutes : Option Int
  servings : Option Int
  sourceUrl : Option String
  diets : Option (List String)
  dishTypes : Option (List String)
  vegetarian : Option Bool
  vegan : Option Bool
  glutenFree : Option Bool
  dairyFree : Option Bool
  healthScore : Option Int
deriving DecidableEq

/-- The normalized recipe summary built by `_parse_recipe_summary`. -/
structure RecipeSummary where
  id : Option Int
  title : String
  image : String
  ready_in_minutes : Option Int
  servings : Option Int
  source_url : String
  diets : List String
  dish_types : List String
  vegetarian : Bool
  vegan : Bool
  gluten_free : Bool
  dairy_free : Bool
  health_score : Option Int
deriving DecidableEq

/-- `SpoonacularService._parse_recipe_summary`. -/
def parseRecipeSummary (d : RecipeSrc) : RecipeSummary :=
  { id := d.id
    title := d.title.getD ""
    image := d.image.getD ""
    ready_in_minutes := d.readyInMinutes
    servings := d.servings
    source_url := d.sourceUrl.getD ""
    diets := d.diets.getD []
    dish_types := d.dishTypes.getD []
    vegetarian := d.vegetarian.getD false
    vegan := d.vegan.getD false
    gluten_free := d.glutenFree.getD false
    dairy_free := d.dairyFree.getD false
    health_score := d.healthScore }

/-- The complex-search response body (`results` and `totalResults` read
via `dict.get` with defaults). -/
structure SearchPayload where
  results : Option (List RecipeSrc)
  totalResults : Option Nat
deriving DecidableEq

/-- The dict `search_recipes` returns. -/
structure SearchResult where
  results : List RecipeSummary
  totalResults : Nat
deriving DecidableEq

/-- The empty result returned on upstream failure. -/
def emptySearchResult : SearchResult := ⟨[], 0⟩

/-- Upstream outcome of the complex-search HTTP GET; `payload = none`
models a body that is not valid JSON (`response.json()` raises, and
`json.JSONDecodeError` is not an `httpx.HTTPError`). -/
inductive SUpstream where
  | netError : SUpstream
  | resp : Nat → Option SearchPayload → SUpstream

/-- The search parameters of `search_recipes` (only their part in the
cache key matters to the embedded behavior; the HTTP request itself is
the `SUpstream` oracle). -/
structure SearchParams where
  query : Option String
  ingredients : Option (List String)
  diet : Option String
  maxReadyTime : Option Nat
  number : Nat
  offset : Nat

/-- Insertion of a string into a sorted list (for Python `sorted`). -/
def insertStr (s : String) : List String → List String
  | [] => [s]
  | t :: ts => if decide (s ≤ t) then s :: t :: ts else t :: insertStr s ts

/-- Python `sorted` on a list of strings. -/
def sortStrs : List String → List String
  | [] => []
  | s :: ss => insertStr s (sortStrs ss)

/-- The cache key of `search_recipes`: Python truthiness makes `None`,
`''`, `[]` and `0` all print as the empty string. -/
def searchCacheKey (p : SearchParams) : String :=
  let qPart := "q:" ++ p.query.getD ""
  let iPart := "i:" ++
    (match p.ingredients with
     | none => ""
     | some [] => ""
     | some l => String.intercalate "," (sortStrs l))
  let dPart := "d:" ++ p.diet.getD ""
  let tPart := "t:" ++
    (match p.maxReadyTime with
     | none => ""
     | some 0 => ""
     | some t => toString t)
  let nPart := "n:" ++ toString p.number
  let oPart := "o:" ++ toString p.offset
  "recipes:search:" ++
    String.intercalate ":" [qPart, iPart, dPart, tPart, nPart, oPart]

/-- The Redis store as seen by the recipe search. -/
def SCache : Type := String → Option (Nat × SearchResult)

/-- Redis `GET` for the recipe cache. -/
def scacheGet (c : SCache) (now : Nat) (k : String) : Option SearchResult :=
  match c k with
  | none => none
  | some (expiry, v) => if now < expiry then some v else none

/-- Redis `SETEX` for the recipe cache. -/
def ssetex (c : SCache) (k : String) (ttl : Nat) (now : Nat)
    (v : SearchResult) : SCache :=
  fun k2 => if k2 = k then some (now + ttl, v) else c k2

/-- The upstream-and-cache tail of `search_recipes`: the HTTP GET and
`raise_for_status` sit in a `try/except httpx.HTTPError` that returns
the empty result; a malformed JSON body raises out of the handler; a
parsed result is cached for 3600 s with the write failure swallowed. -/
def searchFetchAndCache (writeFail : Bool) (u : SUpstream) (c : SCache)
    (now : Nat) (p : SearchParams) : Except Unit (SearchResult × SCache) :=
  match u with
  | .netError => .ok (emptySearchResult, c)
  | .resp statusCode payload =>
    if 400 ≤ statusCode then .ok (emptySearchResult, c)
    else
      match payload with
      | none => .error ()
      | some d =>
        let result : SearchResult :=
          { results := (d.results.getD []).map parseRecipeSummary
            totalResults := d.totalResults.getD 0 }
        let c2 :=
          if writeFail then c
          else ssetex c (searchCacheKey p) 3600 now result
        .ok (result, c2)

/-- `SpoonacularService.search_recipes`: cache read under a `try` whose
failure (`readFail`) falls through to the upstream query. -/
def searchRecipes (readFail writeFail : Bool) (u : SUpstream) (c : SCache)
    (now : Nat) (p : SearchParams) : Except Unit (SearchResult × SCache) :=
  match (if readFail then none else scacheGet c now (searchCacheKey p)) with
  | some v => .ok (v, c)
  | none => searchFetchAndCache writeFail u c now p

/-! ## Grocery data model (`schemas/grocery.py`, `db/models/grocery.py`) -/

/-- The `FoodCategory` enumeration. -/
inductive FoodCategory where
  | DAIRY | MEAT | SEAFOOD | PRODUCE | BAKERY | FROZEN
  | PANTRY | BEVERAGES | CONDIMENTS | SNACKS | OTHER
deriving DecidableEq

/-- `.value` of a `FoodCategory` member. -/
def FoodCategory.value : FoodCategory → String
  | .DAIRY => "Dairy"
  | .MEAT => "Meat"
  | .SEAFOOD => "Seafood"
  | .PRODUCE => "Produce"
  | .BAKERY => "Bakery"
  | .FROZEN => "Frozen"
  | .PANTRY => "Pantry"
  | .BEVERAGES => "Beverages"
  | .CONDIMENTS => "Condiments"
  | .SNACKS => "Snacks"
  | .OTHER => "Other"

/-- Pydantic coercion of a JSON string into `FoodCategory`. -/
def parseFoodCategory (s : String) : Option FoodCategory :=
  [FoodCategory.DAIRY, .MEAT, .SEAFOOD, .PRODUCE, .BAKERY, .FROZEN,
   .PANTRY, .BEVERAGES, .CONDIMENTS, .SNACKS, .OTHER].find?
    (fun c => c.value = s)

/-- The `StorageLocation` enumeration. -/
inductive StorageLocation where
  | REFRIGERATOR | FREEZER | PANTRY | COUNTER
deriving DecidableEq

/-- `.value` of a `StorageLocation` member. -/
def StorageLocation.value : StorageLocation → String
  | .REFRIGERATOR => "Refrigerator"
  | .FREEZER => "Freezer"
  | .PANTRY => "Pantry"
  | .COUNTER => "Counter"

/-- Pydantic coercion of a JSON string into `StorageLocation`. -/
def parseStorageLocation (s : String) : Option StorageLocation :=
  [StorageLocation.REFRIGERATOR, .FREEZER, .PANTRY, .COUNTER].find?
    (fun c => c.value = s)

/-- One row of the `grocery_items` table (`GroceryItem` in
`db/models/grocery.py`); datetimes are `Nat` instants, floats are `ℚ`.
Enum-backed columns are stored as their string values, as the endpoints
store `.value`. -/
structure Item where
  id : String
  user_id : String
  name : String
  category : String
  storage_location : String
  quantity : ℚ
  unit : String
  purchase_date : Nat
  expiration_date : Option Nat
  predicted_expiration_date : Option Nat
  confidence_score : Option ℚ
  barcode : Option String
  external_product_id : Option String
  notes : Option String
  image_url : Option String
  is_consumed : Bool
  consumed_date : Option Nat
  created_at : Nat
  updated_at : Nat
deriving DecidableEq

/-- A validated `GroceryItemCreate` body (the items of a sync request). -/
structure ItemCreate where
  id : Option String
  name : String
  category : FoodCategory
  storage_location : StorageLocation
  quantity : ℚ
  unit : String
  purchase_date : Nat
  expiration_date : Option Nat
  predicted_expiration_date : Option Nat
  confidence_score : Option ℚ
  barcode : Option String
  notes : Option String
deriving DecidableEq

/-- A raw (pre-validation) `GroceryItemCreate` body: enum fields are
still strings, defaulted fields may be absent. -/
structure RawItem where
  id : Option String
  name : String
  category : String
  storage_location : String
  quantity : Option ℚ
  unit : Option String
  purchase_date : Nat
  expiration_date : Option Nat
  predicted_expiration_date : Option Nat
  confidence_score : Option ℚ
  barcode : Option String
  notes : Option String
deriving DecidableEq

/-- Pydantic validation of one `GroceryItemCreate`: `name` length in
[1, 255], `quantity > 0` (default `1`), `unit` length at most 20
(default `"piece"`), `confidence_score` in [0, 1] when present,
`barcode` length at most 50 when present, and both enumerations must
parse. -/
def validateItem (r : RawItem) : Option ItemCreate :=
  let q := r.quantity.getD 1
  let un := r.unit.getD "piece"
  match parseFoodCategory r.category, parseStorageLocation r.storage_location with
  | some cat, some loc =>
    if r.name.length < 1 ∨ 255 < r.name.length then none
    else if q ≤ 0 then none
    else if 20 < un.length then none
    else if (match r.confidence_score with
             | some cs => decide (cs < 0) || decide (1 < cs)
             | none => false) then none
    else if (match r.barcode with
             | some b => decide (50 < b.length)
             | none => false) then none
    else some
      { id := r.id, name := r.name, category := cat, storage_location := loc
        quantity := q, unit := un, purchase_date := r.purchase_date
        expiration_date := r.expiration_date
        predicted_expiration_date := r.predicted_expiration_date
        confidence_score := r.confidence_score, barcode := r.barcode
        notes := r.notes }
  | _, _ => none

/-- Pydantic validation of the `items` list of a `GrocerySyncRequest`:
every element must validate, else the whole request is rejected (FastAPI
answers 422 before the endpoint body runs). -/
def validateItems : List RawItem → Option (List ItemCreate)
  | [] => some []
  | r :: rs =>
    match validateItem r with
    | none => none
    | some i =>
      match validateItems rs with
      | none => none
      | some is2 => some (i :: is2)

/-- A validated `GrocerySyncRequest`. -/
structure SyncRequest where
  items : List ItemCreate
  deleted_ids : List String
deriving DecidableEq

/-! ## Grocery sync engine (`sync_groceries`) -/

/-- The update branch of the sync loop: overwrite the eleven submitted
fields of an existing row; `id`, `user_id`, `external_product_id`,
`image_url`, `is_consumed`, `consumed_date` and `created_at` are
untouched, and the ORM's `onupdate` bumps `updated_at`. -/
def overwriteItem (row : Item) (d : ItemCreate) (now : Nat) : Item :=
  { row with
    name := d.name
    category := d.category.value
    storage_location := d.storage_location.value
    quantity := d.quantity
    unit := d.unit
    purchase_date := d.purchase_date
    expiration_date := d.expiration_date
    predicted_expiration_date := d.predicted_expiration_date
    confidence_score := d.confidence_score
    barcode := d.barcode
    notes := d.notes
    updated_at := now }

/-- The insert branch of the sync loop: a new row under `item_id` for
`userId`, with the server defaults of the model (`is_consumed = False`,
`created_at`/`updated_at` = now). -/
def mkNewItem (userId itemId : String) (d : ItemCreate) (now : Nat) : Item :=
  { id := itemId
    user_id := userId
    name := d.name
    category := d.category.value
    storage_location := d.storage_location.value
    quantity := d.quantity
    unit := d.unit
    purchase_date := d.purchase_date
    expiration_date := d.expiration_date
    predicted_expiration_date := d.predicted_expiration_date
    confidence_score := d.confidence_score
    barcode := d.barcode
    external_product_id := none
    notes := d.notes
    image_url := none
    is_consumed := false
    consumed_date := none
    created_at := now
    updated_at := now }

/-- One iteration of the sync loop with `item_id` already determined:
`SELECT … WHERE id = item_id AND user_id = userId`; overwrite on a hit,
`db.add` a fresh row on a miss. -/
def upsertItem (userId : String) (now : Nat) (db : List Item)
    (itemId : String) (d : ItemCreate) : List Item :=
  if db.any (fun row => row.id == itemId && row.user_id == userId) then
    db.map (fun row =>
      if row.id == itemId && row.user_id == userId then
        overwriteItem row d now
      else row)
  else db ++ [mkNewItem userId itemId d now]

/-- The `for item_data in sync_request.items` loop:
`item_id = item_data.id or str(uuid.uuid4())`. Python's `or` tests
truthiness, so both a missing id and an *empty-string* id are replaced
by a generated uuid (`fresh ctr`); only a non-empty submitted id is
kept. -/
def syncLoop (userId : String) (now : Nat) (fresh : Nat → String) :
    List ItemCreate → List Item → Nat → List Item
  | [], db, _ => db
  | d :: ds, db, ctr =>
    match d.id with
    | some i =>
      if i = "" then
        syncLoop userId now fresh ds
          (upsertItem userId now db (fresh ctr) d) (ctr + 1)
      else
        syncLoop userId now fresh ds (upsertItem userId now db i d) ctr
    | none =>
      syncLoop userId now fresh ds (upsertItem userId now db (fresh ctr) d)
        (ctr + 1)

/-- `sync_groceries` steps 2–4: delete the caller's rows named in
`deleted_ids`, run the upsert loop, then commit. The commit enforces the
global primary key of `grocery_items.id`: a duplicate id makes the
flush raise `IntegrityError` and the transaction roll back, leaving the
store unchanged (`.error ()`). -/
def syncApply (userId : String) (fresh : Nat → String) (now : Nat)
    (db : List Item) (req : SyncRequest) : Except Unit (List Item) :=
  let db1 := db.filter
    (fun row => !(decide (row.id ∈ req.deleted_ids) && row.user_id == userId))
  let db2 := syncLoop userId now fresh req.items db1 0
  if (db2.map Item.id).Nodup then .ok db2 else .error ()

/-- What the sync endpoint answers. -/
inductive SyncOutcome where
  | validationError : SyncOutcome
  | serverError : SyncOutcome
  | ok : List Item → List String → Nat → SyncOutcome
deriving DecidableEq

/-- The whole `POST /groceries/sync` request: FastAPI validates the body
first (422 on failure, before any database statement); then the endpoint
runs `syncApply` and answers with every current row of the caller plus
`server_deleted_ids` (always `[]`) and the sync timestamp. -/
def handleSync (userId : String) (fresh : Nat → String) (now : Nat)
    (db : List Item) (raws : List RawItem) (deletedIds : List String) :
    SyncOutcome × List Item :=
  match validateItems raws with
  | none => (.validationError, db)
  | some items =>
    match syncApply userId fresh now db ⟨items, deletedIds⟩ with
    | .error _ => (.serverError, db)
    | .ok db2 =>
      (.ok (db2.filter (fun row => row.user_id == userId)) [] now, db2)

/-! ## Direct PATCH update (`update_grocery`) -/

/-- A `GroceryItemUpdate` body after `model_dump(exclude_unset=True)`:
the outer `Option` is presence in the request body (`none` = omitted);
for columns that are nullable in the model, the inner `Option` is the
submitted value, possibly null. Fields backing non-nullable columns are
taken non-null when present (an explicit null there would fail the
commit). -/
structure ItemUpdate where
  name : Option String
  category : Option FoodCategory
  storage_location : Option StorageLocation
  quantity : Option ℚ
  unit : Option String
  purchase_date : Option Nat
  expiration_date : Option (Option Nat)
  predicted_expiration_date : Option (Option Nat)
  confidence_score : Option (Option ℚ)
  barcode : Option (Option String)
  notes : Option (Option String)
  is_consumed : Option Bool
  consumed_date : Option (Option Nat)
deriving DecidableEq

/-- Whether `model_dump(exclude_unset=True)` is non-empty: only then is
the row dirty, an UPDATE issued and `updated_at` bumped by `onupdate`. -/
def anyFieldSet (d : ItemUpdate) : Bool :=
  d.name.isSome || d.category.isSome || d.storage_location.isSome ||
  d.quantity.isSome || d.unit.isSome || d.purchase_date.isSome ||
  d.expiration_date.isSome || d.predicted_expiration_date.isSome ||
  d.confidence_score.isSome || d.barcode.isSome || d.notes.isSome ||
  d.is_consumed.isSome || d.consumed_date.isSome

/-- The `setattr` loop of `update_grocery`: each field present in the
body overwrites the row's column (enumerations via `.value`), every
omitted field keeps its stored value. -/
def applyUpdate (row : Item) (d : ItemUpdate) (now : Nat) : Item :=
  { row with
    name := d.name.getD row.name
    category := (d.category.map FoodCategory.value).getD row.category
    storage_location :=
      (d.storage_location.map StorageLocation.value).getD
        row.storage_location
    quantity := d.quantity.getD row.quantity
    unit := d.unit.getD row.unit
    purchase_date := d.purchase_date.getD row.purchase_date
    expiration_date := d.expiration_date.getD row.expiration_date
    predicted_expiration_date :=
      d.predicted_expiration_date.getD row.predicted_expiration_date
    confidence_score := d.confidence_score.getD row.confidence_score
    barcode := d.barcode.getD row.barcode
    notes := d.notes.getD row.notes
    is_consumed := d.is_consumed.getD row.is_consumed
    consumed_date := d.consumed_date.getD row.consumed_date
    updated_at := if anyFieldSet d then now else row.updated_at }

/-- What `PATCH /groceries/{item_id}` answers. -/
inductive UpdateOutcome where
  | notFound : UpdateOutcome
  | ok : Item → UpdateOutcome
deriving DecidableEq

/-- `update_grocery`: `SELECT … WHERE id = item_id AND user_id = user`;
404 with the store untouched when no row matches, else apply the
present fields and commit. -/
def updateGrocery (userId : String) (now : Nat) (db : List Item)
    (itemId : String) (d : ItemUpdate) : UpdateOutcome × List Item :=
  match db.find? (fun row => row.id == itemId && row.user_id == userId) with
  | none => (.notFound, db)
  | some row =>
    (.ok (applyUpdate row d now),
      db.map (fun r =>
        if r.id == itemId && r.user_id == userId then applyUpdate r d now
        else r))

/-- The all-omitted PATCH body. -/
def emptyUpdate : ItemUpdate :=
  ⟨none, none, none, none, none, none, none, none, none, none, none,
   none, none⟩

/-! ### Example data for the sync claims -/

/-- A concrete validated sync item carrying the id `"X"`. -/
def exCreate : ItemCreate :=
  { id := some "X", name := "Milk", category := .DAIRY,
    storage_location := .REFRIGERATOR, quantity := 1, unit := "gallon",
    purchase_date := 0, expiration_date := none,
    predicted_expiration_date := none, confidence_score := none,
    barcode := none, notes := none }

/-- The raw request body that validates to `exCreate`. -/
def exRaw : RawItem :=
  { id := some "X", name := "Milk", category := "Dairy",
    storage_location := "Refrigerator", quantity := some 1,
    unit := some "gallon", purchase_date := 0, expiration_date := none,
    predicted_expiration_date := none, confidence_score := none,
    barcode := none, notes := none }

/-- A raw body with an invalid enumeration value. -/
def exBadRaw : RawItem := { exRaw with category := "Junk" }

/-- A deterministic stand-in for `uuid.uuid4()`. -/
def exFresh : Nat → String := fun n => "fresh-" ++ toString n

/-- A stored row with id `"X"` owned by user `"A"`. -/
def exRowA : Item := mkNewItem "A" "X" exCreate 0

/-- A sync item submitting the falsy empty-string id with a changed
name. -/
def exCreateEmptyId : ItemCreate :=
  { exCreate with id := some "", name := "Oat Milk" }

/-- A stored row under the empty-string id, owned by user `"A"`. -/
def exRowEmpty : Item := mkNewItem "A" "" exCreate 0

/-- A stored row with id `"X"` owned by user `"B"`. -/
def exRowB : Item := mkNewItem "B" "X" exCreate 0

/-! ## Theorems -/

/-- The category mapping as the specification words it: the first tag
(in upstream-provided order) whose lowercase form contains any mapped
keyword determines the category — via the first matching table entry —
and `"Other"` is returned when no tag matches. -/
def specMapCategory (tags : List String) : String :=
  match tags.find?
      (fun t => categoryMapping.any (fun p => strHasSub (strLower t) p.1)) with
  | some t =>
    match categoryMapping.find? (fun p => strHasSub (strLower t) p.1) with
    | some p => p.2
    | none => "Other"
  | none => "Other"

/-- C6: the product category mapping is a deterministic pure function of
the upstream tag list — the first tag (in upstream order) whose
lowercase form contains a mapped keyword (case-insensitive substring
match against the fixed table) determines the category, `"Other"` when
no tag matches — and on `["en:yogurts", "en:dairy"]` it gives
`"Dairy"`, on `["en:unknown-thing"]` it gives `"Other"`. -/
theorem C6_category_mapping_deterministic :
    (∀ tags : List String, mapCategory tags = specMapCategory tags) ∧
    mapCategory ["en:yogurts", "en:dairy"] = "Dairy" ∧
    mapCategory ["en:unknown-thing"] = "Other" := by
  refine ⟨?_, by decide, by decide⟩
  intro tags
  induction tags with
  | nil => rfl
  | cons t ts ih =>
    unfold mapCategory specMapCategory
    rcases h : categoryMapping.find? (fun p => strHasSub (strLower t) p.1) with
      _ | p
    · have hany : categoryMapping.any
          (fun p => strHasSub (strLower t) p.1) = false := by
        rw [List.any_eq_false]
        intro p hp
        have := List.find?_eq_none.mp h p hp
        simpa using this
      simp only [List.find?_cons, hany, h]
      rw [ih]
      rfl
    · have hmem := List.mem_of_find?_eq_some h
      have hp := List.find?_some h
      have hany : categoryMapping.any
          (fun p => strHasSub (strLower t) p.1) = true := by
        rw [List.any_eq_true]
        exact ⟨p, hmem, by simpa using hp⟩
      simp only [List.find?_cons, hany, h]

/-- C5 counterexample: the input `" 12345678"` does not match the
claimed pattern `^\d{8}$|^\d{12}$|^\d{13}$|^\d{14}$`, yet the endpoint
does not reject it — it strips the input first, passes the lookup on
(outcome 404 from the upstream miss), and even writes a negative cache
entry, so cache and upstream were accessed. -/
theorem C5_strip_counterexample :
    specBarcodePattern " 12345678" = false ∧
    (lookupBarcode false false Upstream.netError emptyCache 0
        " 12345678").1 = BarcodeOutcome.notFound ∧
    (lookupBarcode false false Upstream.netError emptyCache 0
        " 12345678").2 "barcode:12345678" = some (3600, none) :=
  ⟨by decide, by rfl, by rfl⟩

/-- C5 amended: the endpoint first strips surrounding whitespace from
the raw input; if the *stripped* input is not all-digit of length 8, 12,
13 or 14 the request is rejected with a 400 validation error before any
cache read or upstream call (the cache is returned untouched for every
oracle), and otherwise the stripped input is passed on to the cache
gateway `serviceLookup`. -/
theorem C5_validation_after_strip (rf wf : Bool) (u : Upstream) (c : Cache)
    (now : Nat) (raw : String) :
    (validBarcode (pyStrip raw) = false →
      lookupBarcode rf wf u c now raw = (.badRequest, c)) ∧
    (validBarcode (pyStrip raw) = true →
      lookupBarcode rf wf u c now raw =
        match serviceLookup rf wf u c now (pyStrip raw) with
        | .error _ => (.serverError, c)
        | .ok (none, c2) => (.notFound, c2)
        | .ok (some p, c2) =>
          if p.name = "" then (.notFound, c2) else (.ok p, c2)) := by
  constructor
  · intro h
    simp [lookupBarcode, h]
  · intro h
    simp [lookupBarcode, h]

/-- C5 witness: a malformed input is rejected with the store untouched,
and a well-formed one reaches the gateway. -/
theorem C5_validation_after_strip_witness :
    lookupBarcode false false Upstream.netError emptyCache 0 "12ab" =
      (.badRequest, emptyCache) ∧
    lookupBarcode false false Upstream.netError emptyCache 0 "12345678" =
      match serviceLookup false false Upstream.netError emptyCache 0
          (pyStrip "12345678") with
      | .error _ => (.serverError, emptyCache)
      | .ok (none, c2) => (.notFound, c2)
      | .ok (some p, c2) =>
        if p.name = "" then (.notFound, c2) else (.ok p, c2) :=
  ⟨(C5_validation_after_strip false false Upstream.netError emptyCache 0
      "12ab").1 (by decide),
   (C5_validation_after_strip false false Upstream.netError emptyCache 0
      "12345678").2 (by decide)⟩

/-- C3 counterexample: a technically successful (status 200) upstream
response whose body is not valid JSON does not resolve to NotFound —
`response.json()` sits outside the `try/except httpx.HTTPError`, so the
decoding error propagates out of the service. -/
theorem C3_malformed_payload_raises :
    queryOpenFoodFacts (Upstream.resp 200 none) "12345678" = .error () ∧
    (Except.error () : Except Unit (Option Product)) ≠ .ok none :=
  ⟨rfl, by simp⟩

/-- C3 amended: on a cache miss, an upstream network failure or a
non-success HTTP status resolves to NotFound (`none`) rather than an
error, and a successful response whose `status` flag is not 1 or whose
required product name is empty or missing also yields NotFound; a
malformed (non-JSON) response payload, however, raises an error that
propagates to the caller. -/
theorem C3_upstream_failures_resolve_to_not_found (b : String) :
    queryOpenFoodFacts .netError b = .ok none ∧
    (∀ (s : Nat) (p : Option OffData), s ≠ 200 →
      queryOpenFoodFacts (.resp s p) b = .ok none) ∧
    queryOpenFoodFacts (.resp 200 none) b = .error () ∧
    (∀ d : OffData, d.status ≠ some 1 →
      queryOpenFoodFacts (.resp 200 (some d)) b = .ok none) ∧
    (∀ d : OffData,
      pyStrip ((d.product.getD offProductEmpty).product_name.getD "") = "" →
      queryOpenFoodFacts (.resp 200 (some d)) b = .ok none) := by
  refine ⟨rfl, ?_, rfl, ?_, ?_⟩
  · intro s p hs
    simp [queryOpenFoodFacts, hs]
  · intro d hd
    simp [queryOpenFoodFacts, hd]
  · intro d hname
    by_cases hd : d.status = some 1
    · simp [queryOpenFoodFacts, hd, parseProduct, hname]
    · simp [queryOpenFoodFacts, hd]

/-- C3 witness: the four NotFound-producing outcomes and the raising
one, at concrete inputs. -/
theorem C3_upstream_failures_witness :
    queryOpenFoodFacts .netError "12345678" = .ok none ∧
    queryOpenFoodFacts (.resp 500 none) "12345678" = .ok none ∧
    queryOpenFoodFacts (.resp 200 none) "12345678" = .error () ∧
    queryOpenFoodFacts (.resp 200 (some ⟨some 0, none⟩)) "12345678" =
      .ok none ∧
    queryOpenFoodFacts (.resp 200 (some ⟨some 1, none⟩)) "12345678" =
      .ok none :=
  ⟨(C3_upstream_failures_resolve_to_not_found "12345678").1,
   (C3_upstream_failures_resolve_to_not_found "12345678").2.1 500 none
     (by decide),
   (C3_upstream_failures_resolve_to_not_found "12345678").2.2.1,
   (C3_upstream_failures_resolve_to_not_found "12345678").2.2.2.1
     ⟨some 0, none⟩ (by decide),
   (C3_upstream_failures_resolve_to_not_found "12345678").2.2.2.2
     ⟨some 1, none⟩ (by decide)⟩

/-- C7: in both gateway instances a cache-read failure is handled
exactly as a cache miss (the upstream-query tail runs, with no error
from the cache), and a cache-write failure after the result has been
computed leaves the freshly computed result returned to the caller with
the store untouched. -/
theorem C7_cache_failures_never_propagate :
    (∀ (wf : Bool) (u : Upstream) (c : Cache) (now : Nat) (b : String),
      serviceLookup true wf u c now b = fetchAndCache wf u c now b) ∧
    (∀ (wf : Bool) (u : Upstream) (c : Cache) (now : Nat) (b : String),
      cacheGet c now ("barcode:" ++ b) = none →
      serviceLookup false wf u c now b = fetchAndCache wf u c now b) ∧
    (∀ (u : Upstream) (c : Cache) (now : Nat) (b : String)
        (prod : Option Product),
      queryOpenFoodFacts u b = .ok prod →
      fetchAndCache true u c now b = .ok (prod, c)) ∧
    (∀ (wf : Bool) (u : SUpstream) (c : SCache) (now : Nat)
        (p : SearchParams),
      searchRecipes true wf u c now p = searchFetchAndCache wf u c now p) ∧
    (∀ (wf : Bool) (u : SUpstream) (c : SCache) (now : Nat)
        (p : SearchParams),
      scacheGet c now (searchCacheKey p) = none →
      searchRecipes false wf u c now p = searchFetchAndCache wf u c now p) ∧
    (∀ (u : SUpstream) (c : SCache) (now : Nat) (p : SearchParams)
        (res : SearchResult) (c2 : SCache),
      searchFetchAndCache false u c now p = .ok (res, c2) →
      searchFetchAndCache true u c now p = .ok (res, c)) := by
  refine ⟨fun _ _ _ _ _ => rfl, ?_, ?_, fun _ _ _ _ _ => rfl, ?_, ?_⟩
  · intro wf u c now b h
    simp [serviceLookup, h]
  · intro u c now b prod h
    simp [fetchAndCache, h]
  · intro wf u c now p h
    simp [searchRecipes, h]
  · intro u c now p res c2 h
    cases u with
    | netError =>
      simp only [searchFetchAndCache, Except.ok.injEq, Prod.mk.injEq] at h ⊢
      exact ⟨h.1, trivial⟩
    | resp s payload =>
      by_cases hs : 400 ≤ s
      · simp only [searchFetchAndCache, if_pos hs, Except.ok.injEq,
          Prod.mk.injEq] at h ⊢
        exact ⟨h.1, trivial⟩
      · cases payload with
        | none => simp [searchFetchAndCache, if_neg hs] at h
        | some d =>
          simp only [searchFetchAndCache, if_neg hs, if_pos, if_neg,
            Except.ok.injEq, Prod.mk.injEq] at h ⊢
          exact ⟨h.1, trivial⟩

/-- C7 witness: a cold cache falls through to the upstream tail, and
with the write failing the upstream miss is still returned with the
store untouched, in both services. -/
theorem C7_cache_failures_witness :
    serviceLookup false false Upstream.netError emptyCache 0 "11111111" =
      fetchAndCache false Upstream.netError emptyCache 0 "11111111" ∧
    fetchAndCache true Upstream.netError emptyCache 0 "11111111" =
      .ok (none, emptyCache) ∧
    searchRecipes false false SUpstream.netError (fun _ => none) 0
        ⟨none, none, none, none, 10, 0⟩ =
      searchFetchAndCache false SUpstream.netError (fun _ => none) 0
        ⟨none, none, none, none, 10, 0⟩ ∧
    searchFetchAndCache true SUpstream.netError (fun _ => none) 0
        ⟨none, none, none, none, 10, 0⟩ =
      .ok (emptySearchResult, (fun _ => none : SCache)) :=
  ⟨C7_cache_failures_never_propagate.2.1 false Upstream.netError emptyCache
     0 "11111111" rfl,
   C7_cache_failures_never_propagate.2.2.1 Upstream.netError emptyCache 0
     "11111111" none rfl,
   C7_cache_failures_never_propagate.2.2.2.2.1 false SUpstream.netError
     (fun _ => none) 0 ⟨none, none, none, none, 10, 0⟩ rfl,
   C7_cache_failures_never_propagate.2.2.2.2.2 SUpstream.netError
     (fun _ => none) 0 ⟨none, none, none, none, 10, 0⟩ emptySearchResult
     (fun _ => none) rfl⟩

/-- C8: after an upstream miss on a cold key the lookup writes a
negative marker with the short 3600 s TTL (a hit gets the 604800 s one);
while the marker is unexpired a lookup returns NotFound with the store
untouched, for every upstream oracle, so no upstream query occurs; once
the marker expires the key reads as absent again; and an absent key
always falls through to the upstream tail — absence never means known
not to exist. -/
theorem C8_negative_caching :
    (∀ (u : Upstream) (c : Cache) (now : Nat) (b : String),
      cacheGet c now ("barcode:" ++ b) = none →
      queryOpenFoodFacts u b = .ok none →
      serviceLookup false false u c now b =
        .ok (none, setex c ("barcode:" ++ b) 3600 now none)) ∧
    (∀ (u : Upstream) (c : Cache) (now : Nat) (b : String) (p : Product),
      cacheGet c now ("barcode:" ++ b) = none →
      queryOpenFoodFacts u b = .ok (some p) →
      serviceLookup false false u c now b =
        .ok (some p, setex c ("barcode:" ++ b) 604800 now (some p))) ∧
    (∀ (u : Upstream) (c : Cache) (now2 : Nat) (b : String),
      cacheGet c now2 ("barcode:" ++ b) = some none →
      serviceLookup false false u c now2 b = .ok (none, c)) ∧
    (∀ (c : Cache) (now now2 : Nat) (b : String), now2 < now + 3600 →
      cacheGet (setex c ("barcode:" ++ b) 3600 now none) now2
        ("barcode:" ++ b) = some none) ∧
    (∀ (c : Cache) (now now2 : Nat) (b : String), now + 3600 ≤ now2 →
      cacheGet (setex c ("barcode:" ++ b) 3600 now none) now2
        ("barcode:" ++ b) = none) ∧
    (∀ (wf : Bool) (u : Upstream) (c : Cache) (now : Nat) (b : String),
      cacheGet c now ("barcode:" ++ b) = none →
      serviceLookup false wf u c now b = fetchAndCache wf u c now b) := by
  refine ⟨?_, ?_, ?_, ?_, ?_, ?_⟩
  · intro u c now b hmiss hup
    simp [serviceLookup, fetchAndCache, hmiss, hup]
  · intro u c now b p hmiss hup
    simp [serviceLookup, fetchAndCache, hmiss, hup]
  · intro u c now2 b hmark
    simp [serviceLookup, hmark]
  · intro c now now2 b hlt
    simp [cacheGet, setex, hlt]
  · intro c now now2 b hle
    simp [cacheGet, setex, Nat.not_lt.mpr hle]
  · intro wf u c now b hmiss
    simp [serviceLookup, hmiss]

/-- C8 witness: one concrete run through the negative-cache life cycle
on a cold store. -/
theorem C8_negative_caching_witness :
    serviceLookup false false Upstream.netError emptyCache 0 "11111111" =
      .ok (none, setex emptyCache "barcode:11111111" 3600 0 none) ∧
    serviceLookup false false (Upstream.resp 500 none)
        (setex emptyCache "barcode:11111111" 3600 0 none) 100 "11111111" =
      .ok (none, setex emptyCache "barcode:11111111" 3600 0 none) ∧
    cacheGet (setex emptyCache "barcode:11111111" 3600 0 none) 3600
        "barcode:11111111" = none :=
  ⟨C8_negative_caching.1 Upstream.netError emptyCache 0 "11111111" rfl rfl,
   C8_negative_caching.2.2.1 (Upstream.resp 500 none)
     (setex emptyCache "barcode:11111111" 3600 0 none) 100 "11111111"
     (by simp [cacheGet, setex]),
   C8_negative_caching.2.2.2.2.1 emptyCache 0 3600 "11111111"
     (by decide)⟩


/-- C1 counterexample: user `"A"` owns row `"X"`; one sync call both
deletes `"X"` and submits an item with id `"X"`. The delete step does
run first — and precisely because of that, the insert/update step then
re-inserts `"X"` as a new row, so `"X"` is PRESENT in the post-merge
set, contradicting the claim that the delete wins and `"X"` is absent. -/
theorem C1_delete_then_submit_counterexample :
    syncApply "A" exFresh 5 [exRowA] ⟨[exCreate], ["X"]⟩ =
      .ok [mkNewItem "A" "X" exCreate 5] ∧
    (mkNewItem "A" "X" exCreate 5).id = "X" :=
  ⟨rfl, rfl⟩

/-- C1 amended: when a sync call both deletes a non-empty id `X` and
submits an item with id `X` (all stored `X`-rows being the caller's),
the delete step runs first and the insert/update step then re-inserts
the submitted state as a brand-new row — so `X` is present in the
post-merge set, as a freshly created record (`created_at = now`,
consumption state reset) carrying the submitted fields; the submitted
state, not the delete, wins. (A submitted *empty-string* id is falsy in
`item_data.id or str(uuid.uuid4())` and is replaced by a fresh uuid, so
only for it — or for ids not resubmitted at all — does the delete
win.) -/
theorem C1_delete_then_submit_reinserts (u : String) (fresh : Nat → String)
    (now : Nat) (db : List Item) (itm : ItemCreate) (X : String)
    (hX : X ≠ "") (hnodup : (db.map Item.id).Nodup) (hid : itm.id = some X)
    (hown : ∀ r ∈ db, r.id = X → r.user_id = u) :
    ∃ db2, syncApply u fresh now db ⟨[itm], [X]⟩ = .ok db2 ∧
      mkNewItem u X itm now ∈ db2 ∧
      (∀ s ∈ db2, s.id = X → s = mkNewItem u X itm now) ∧
      (mkNewItem u X itm now).created_at = now ∧
      (mkNewItem u X itm now).is_consumed = false ∧
      (mkNewItem u X itm now).name = itm.name := by
  have hdb1 : ∀ s ∈ db.filter
      (fun row => !(decide (row.id ∈ ([X] : List String)) &&
        row.user_id == u)), s.id ≠ X := by
    intro s hs hsx
    have hmem := List.mem_of_mem_filter hs
    have hpr := List.of_mem_filter hs
    have huser : s.user_id = u := hown s hmem hsx
    simp [hsx, huser] at hpr
  have hany : (db.filter
      (fun row => !(decide (row.id ∈ ([X] : List String)) &&
        row.user_id == u))).any
      (fun row => row.id == X && row.user_id == u) = false := by
    rw [List.any_eq_false]
    intro x hx
    simp [hdb1 x hx]
  have hloop : syncLoop u now fresh [itm]
      (db.filter (fun row => !(decide (row.id ∈ ([X] : List String)) &&
        row.user_id == u))) 0 =
      db.filter (fun row => !(decide (row.id ∈ ([X] : List String)) &&
        row.user_id == u)) ++ [mkNewItem u X itm now] := by
    simp only [syncLoop, hid]
    rw [if_neg hX]
    unfold upsertItem
    rw [hany]
    simp
  have hnodup1 : ((db.filter
      (fun row => !(decide (row.id ∈ ([X] : List String)) &&
        row.user_id == u))).map Item.id).Nodup :=
    hnodup.sublist ((List.filter_sublist db).map Item.id)
  have hXnot : X ∉ (db.filter
      (fun row => !(decide (row.id ∈ ([X] : List String)) &&
        row.user_id == u))).map Item.id := by
    intro hmem
    rcases List.mem_map.mp hmem with ⟨s, hs, hsid⟩
    exact hdb1 s hs hsid
  have hnodup2 : (((db.filter
      (fun row => !(decide (row.id ∈ ([X] : List String)) &&
        row.user_id == u))) ++ [mkNewItem u X itm now]).map Item.id).Nodup := by
    rw [List.map_append]
    have : ([mkNewItem u X itm now].map Item.id) = [X] := rfl
    rw [this, ← List.concat_eq_append]
    exact hnodup1.concat hXnot
  have happly : syncApply u fresh now db ⟨[itm], [X]⟩ =
      (if ((syncLoop u now fresh [itm]
          (db.filter (fun row => !(decide (row.id ∈ ([X] : List String)) &&
            row.user_id == u))) 0).map Item.id).Nodup then
        Except.ok (syncLoop u now fresh [itm]
          (db.filter (fun row => !(decide (row.id ∈ ([X] : List String)) &&
            row.user_id == u))) 0)
      else Except.error ()) := rfl
  refine ⟨(db.filter (fun row => !(decide (row.id ∈ ([X] : List String)) &&
      row.user_id == u))) ++ [mkNewItem u X itm now], ?_, ?_, ?_, rfl, rfl,
      rfl⟩
  · rw [happly, hloop]
    exact if_pos hnodup2
  · exact List.mem_append_right _ (List.mem_singleton.mpr rfl)
  · intro s hs hsx
    rcases List.mem_append.mp hs with h1 | h2
    · exact absurd hsx (hdb1 s h1)
    · exact List.mem_singleton.mp h2

/-- C1 amended witness: the concrete delete-and-resubmit run. -/
theorem C1_delete_then_submit_reinserts_witness :
    ∃ db2, syncApply "A" exFresh 5 [exRowA] ⟨[exCreate], ["X"]⟩ =
        .ok db2 ∧
      mkNewItem "A" "X" exCreate 5 ∈ db2 ∧
      (∀ s ∈ db2, s.id = "X" → s = mkNewItem "A" "X" exCreate 5) ∧
      (mkNewItem "A" "X" exCreate 5).created_at = 5 ∧
      (mkNewItem "A" "X" exCreate 5).is_consumed = false ∧
      (mkNewItem "A" "X" exCreate 5).name = exCreate.name :=
  C1_delete_then_submit_reinserts "A" exFresh 5 [exRowA] exCreate "X"
    (by decide) (by decide) rfl (by decide)

/-- C2 counterexample: user `"B"` owns row `"X"`; user `"A"` submits an
item carrying id `"X"`. No fresh identifier is generated — the insert
keeps the submitted id, collides with the global primary key of
`grocery_items.id` at commit, and the whole call fails with the store
unchanged; no new item is created for `"A"`. -/
theorem C2_cross_user_id_counterexample :
    syncApply "A" exFresh 5 [exRowB] ⟨[exCreate], []⟩ = .error () ∧
    handleSync "A" exFresh 5 [exRowB] [exRaw] [] =
      (.serverError, [exRowB]) :=
  ⟨rfl, rfl⟩

/-- C2 amended: a fresh identifier is generated exactly when the
submitted item carries no id or an *empty-string* id (both are falsy in
`item_data.id or str(uuid.uuid4())`); a submitted non-empty id that does
not exist in the store is inserted under the *submitted* id; and a
submitted non-empty id that exists under a different owner makes the
insert violate the global primary key, failing the whole call with the
store unchanged — the other user's record is never mutated, but no new
item is created either. -/
theorem C2_unknown_id_kept_and_cross_user_id_fails :
    (∀ (u : String) (fresh : Nat → String) (now : Nat) (db : List Item)
        (itm : ItemCreate),
      itm.id = none → (db.map Item.id).Nodup →
      fresh 0 ∉ db.map Item.id →
      syncApply u fresh now db ⟨[itm], []⟩ =
        .ok (db ++ [mkNewItem u (fresh 0) itm now])) ∧
    (∀ (u : String) (fresh : Nat → String) (now : Nat) (db : List Item)
        (itm : ItemCreate),
      itm.id = some "" → (db.map Item.id).Nodup →
      fresh 0 ∉ db.map Item.id →
      syncApply u fresh now db ⟨[itm], []⟩ =
        .ok (db ++ [mkNewItem u (fresh 0) itm now])) ∧
    (∀ (u : String) (fresh : Nat → String) (now : Nat) (db : List Item)
        (itm : ItemCreate) (z : String),
      itm.id = some z → z ≠ "" → (db.map Item.id).Nodup →
      z ∉ db.map Item.id →
      syncApply u fresh now db ⟨[itm], []⟩ =
        .ok (db ++ [mkNewItem u z itm now])) ∧
    (∀ (u : String) (fresh : Nat → String) (now : Nat) (db : List Item)
        (itm : ItemCreate) (z : String) (r : Item),
      itm.id = some z → z ≠ "" → (db.map Item.id).Nodup → r ∈ db →
      r.id = z → r.user_id ≠ u →
      syncApply u fresh now db ⟨[itm], []⟩ = .error ()) := by
  have hfilter : ∀ (u : String) (db : List Item),
      db.filter (fun row => !(decide (row.id ∈ ([] : List String)) &&
        row.user_id == u)) = db := by
    intro u db
    rw [List.filter_eq_self]
    intro a _
    simp
  refine ⟨?_, ?_, ?_, ?_⟩
  · intro u fresh now db itm hid hnodup hfr
    have hany : db.any
        (fun row => row.id == fresh 0 && row.user_id == u) = false := by
      rw [List.any_eq_false]
      intro x hx
      simp only [Bool.and_eq_true, beq_iff_eq, not_and]
      intro hxid _
      exact hfr (List.mem_map.mpr ⟨x, hx, hxid⟩)
    have happly : syncApply u fresh now db ⟨[itm], []⟩ =
        (if ((syncLoop u now fresh [itm]
            (db.filter (fun row => !(decide (row.id ∈ ([] : List String)) &&
              row.user_id == u))) 0).map Item.id).Nodup then
          Except.ok (syncLoop u now fresh [itm]
            (db.filter (fun row => !(decide (row.id ∈ ([] : List String)) &&
              row.user_id == u))) 0)
        else Except.error ()) := rfl
    have hloop : syncLoop u now fresh [itm] db 0 =
        db ++ [mkNewItem u (fresh 0) itm now] := by
      simp only [syncLoop, hid]
      unfold upsertItem
      rw [hany]
      simp
    rw [happly, hfilter, hloop]
    refine if_pos ?_
    rw [List.map_append]
    have hz : ([mkNewItem u (fresh 0) itm now].map Item.id) = [fresh 0] := rfl
    rw [hz, ← List.concat_eq_append]
    exact hnodup.concat hfr
  · intro u fresh now db itm hid hnodup hfr
    have hany : db.any
        (fun row => row.id == fresh 0 && row.user_id == u) = false := by
      rw [List.any_eq_false]
      intro x hx
      simp only [Bool.and_eq_true, beq_iff_eq, not_and]
      intro hxid _
      exact hfr (List.mem_map.mpr ⟨x, hx, hxid⟩)
    have happly : syncApply u fresh now db ⟨[itm], []⟩ =
        (if ((syncLoop u now fresh [itm]
            (db.filter (fun row => !(decide (row.id ∈ ([] : List String)) &&
              row.user_id == u))) 0).map Item.id).Nodup then
          Except.ok (syncLoop u now fresh [itm]
            (db.filter (fun row => !(decide (row.id ∈ ([] : List String)) &&
              row.user_id == u))) 0)
        else Except.error ()) := rfl
    have hloop : syncLoop u now fresh [itm] db 0 =
        db ++ [mkNewItem u (fresh 0) itm now] := by
      simp only [syncLoop, hid]
      rw [if_pos trivial]
      unfold upsertItem
      rw [hany]
      simp
    rw [happly, hfilter, hloop]
    refine if_pos ?_
    rw [List.map_append]
    have hz : ([mkNewItem u (fresh 0) itm now].map Item.id) = [fresh 0] := rfl
    rw [hz, ← List.concat_eq_append]
    exact hnodup.concat hfr
  · intro u fresh now db itm z hid hzne hnodup hz
    have hany : db.any
        (fun row => row.id == z && row.user_id == u) = false := by
      rw [List.any_eq_false]
      intro x hx
      simp only [Bool.and_eq_true, beq_iff_eq, not_and]
      intro hxid _
      exact hz (List.mem_map.mpr ⟨x, hx, hxid⟩)
    have happly : syncApply u fresh now db ⟨[itm], []⟩ =
        (if ((syncLoop u now fresh [itm]
            (db.filter (fun row => !(decide (row.id ∈ ([] : List String)) &&
              row.user_id == u))) 0).map Item.id).Nodup then
          Except.ok (syncLoop u now fresh [itm]
            (db.filter (fun row => !(decide (row.id ∈ ([] : List String)) &&
              row.user_id == u))) 0)
        else Except.error ()) := rfl
    have hloop : syncLoop u now fresh [itm] db 0 =
        db ++ [mkNewItem u z itm now] := by
      simp only [syncLoop, hid]
      rw [if_neg hzne]
      unfold upsertItem
      rw [hany]
      simp
    rw [happly, hfilter, hloop]
    refine if_pos ?_
    rw [List.map_append]
    have hzeq : ([mkNewItem u z itm now].map Item.id) = [z] := rfl
    rw [hzeq, ← List.concat_eq_append]
    exact hnodup.concat hz
  · intro u fresh now db itm z r hid hzne hnodup hr hrid hru
    have hany : db.any
        (fun row => row.id == z && row.user_id == u) = false := by
      rw [List.any_eq_false]
      intro x hx
      simp only [Bool.and_eq_true, beq_iff_eq, not_and]
      intro hxid hxu
      have hxr : x = r :=
        List.inj_on_of_nodup_map hnodup hx hr (by rw [hxid, hrid])
      exact hru (hxr ▸ hxu)
    have happly : syncApply u fresh now db ⟨[itm], []⟩ =
        (if ((syncLoop u now fresh [itm]
            (db.filter (fun row => !(decide (row.id ∈ ([] : List String)) &&
              row.user_id == u))) 0).map Item.id).Nodup then
          Except.ok (syncLoop u now fresh [itm]
            (db.filter (fun row => !(decide (row.id ∈ ([] : List String)) &&
              row.user_id == u))) 0)
        else Except.error ()) := rfl
    have hloop : syncLoop u now fresh [itm] db 0 =
        db ++ [mkNewItem u z itm now] := by
      simp only [syncLoop, hid]
      rw [if_neg hzne]
      unfold upsertItem
      rw [hany]
      simp
    rw [happly, hfilter, hloop]
    refine if_neg ?_
    intro hnd
    rw [List.map_append] at hnd
    have h2 := List.nodup_append.mp hnd
    exact h2.2.2 (List.mem_map.mpr ⟨r, hr, hrid⟩)
      (by simp [mkNewItem])

/-- C2 amended witness: no-id and empty-id inserts under a generated
id, unknown-non-empty-id insert under the submitted id, and the failing
cross-user collision. -/
theorem C2_unknown_id_kept_witness :
    syncApply "A" exFresh 5 [] ⟨[{ exCreate with id := none }], []⟩ =
      .ok [mkNewItem "A" (exFresh 0) { exCreate with id := none } 5] ∧
    syncApply "A" exFresh 5 [] ⟨[{ exCreate with id := some "" }], []⟩ =
      .ok [mkNewItem "A" (exFresh 0) { exCreate with id := some "" } 5] ∧
    syncApply "A" exFresh 5 [] ⟨[exCreate], []⟩ =
      .ok [mkNewItem "A" "X" exCreate 5] ∧
    syncApply "A" exFresh 5 [exRowB] ⟨[exCreate], []⟩ = .error () :=
  ⟨C2_unknown_id_kept_and_cross_user_id_fails.1 "A" exFresh 5 []
     { exCreate with id := none } rfl (by decide) (by decide),
   C2_unknown_id_kept_and_cross_user_id_fails.2.1 "A" exFresh 5 []
     { exCreate with id := some "" } rfl (by decide) (by decide),
   C2_unknown_id_kept_and_cross_user_id_fails.2.2.1 "A" exFresh 5 []
     exCreate "X" rfl (by decide) (by decide) (by decide),
   C2_unknown_id_kept_and_cross_user_id_fails.2.2.2 "A" exFresh 5 [exRowB]
     exCreate "X" exRowB rfl (by decide) (by decide) (by decide)
     (by decide) (by decide)⟩

/-- C4 counterexample: a stored row under the empty-string id is NOT
overwritten when an item with id `""` and a changed name is submitted —
`item_data.id or str(uuid.uuid4())` treats the falsy id as absent and
generates a fresh uuid, so the stored row survives unchanged and the
submission lands in a new row instead. -/
theorem C4_empty_id_not_overwritten_counterexample :
    syncApply "A" exFresh 5 [exRowEmpty] ⟨[exCreateEmptyId], []⟩ =
      .ok [exRowEmpty, mkNewItem "A" (exFresh 0) exCreateEmptyId 5] ∧
    exRowEmpty.id = "" ∧
    exRowEmpty.user_id = "A" ∧
    exCreateEmptyId.id = some "" ∧
    exRowEmpty.name = "Milk" ∧
    exCreateEmptyId.name = "Oat Milk" :=
  ⟨rfl, rfl, rfl, rfl, rfl, rfl⟩

/-- C4 amended: a sync submitting an item whose *non-empty* id `X`
exists under the same user overwrites all eleven submitted fields of the
stored row with the submitted values — a full replace, with no check
against the server's current `updated_at` (no such hypothesis appears) —
while preserving the row's `created_at` (and its identity and
consumption state), and bumping `updated_at` to the sync instant; all
other rows are untouched. (A submitted empty-string id is falsy in
`item_data.id or str(uuid.uuid4())` and is replaced by a fresh uuid
before the lookup, so it never matches a stored row.) -/
theorem C4_sync_update_full_replace (u : String) (fresh : Nat → String)
    (now : Nat) (db : List Item) (itm : ItemCreate) (X : String) (r : Item)
    (hX : X ≠ "") (hr : r ∈ db) (hrid : r.id = X) (hru : r.user_id = u)
    (hnodup : (db.map Item.id).Nodup) (hid : itm.id = some X) :
    syncApply u fresh now db ⟨[itm], []⟩ =
      .ok (db.map (fun s =>
        if s.id == X && s.user_id == u then overwriteItem s itm now
        else s)) ∧
    overwriteItem r itm now ∈ db.map (fun s =>
        if s.id == X && s.user_id == u then overwriteItem s itm now
        else s) ∧
    (∀ s ∈ db, ¬(s.id = X ∧ s.user_id = u) →
      s ∈ db.map (fun s =>
        if s.id == X && s.user_id == u then overwriteItem s itm now
        else s)) ∧
    (overwriteItem r itm now).name = itm.name ∧
    (overwriteItem r itm now).category = itm.category.value ∧
    (overwriteItem r itm now).storage_location =
      itm.storage_location.value ∧
    (overwriteItem r itm now).quantity = itm.quantity ∧
    (overwriteItem r itm now).unit = itm.unit ∧
    (overwriteItem r itm now).purchase_date = itm.purchase_date ∧
    (overwriteItem r itm now).expiration_date = itm.expiration_date ∧
    (overwriteItem r itm now).predicted_expiration_date =
      itm.predicted_expiration_date ∧
    (overwriteItem r itm now).confidence_score = itm.confidence_score ∧
    (overwriteItem r itm now).barcode = itm.barcode ∧
    (overwriteItem r itm now).notes = itm.notes ∧
    (overwriteItem r itm now).created_at = r.created_at ∧
    (overwriteItem r itm now).id = r.id ∧
    (overwriteItem r itm now).user_id = r.user_id ∧
    (overwriteItem r itm now).is_consumed = r.is_consumed ∧
    (overwriteItem r itm now).consumed_date = r.consumed_date ∧
    (overwriteItem r itm now).updated_at = now := by
  have hany : db.any (fun row => row.id == X && row.user_id == u) = true := by
    rw [List.any_eq_true]
    exact ⟨r, hr, by simp [hrid, hru]⟩
  have hfilter : db.filter
      (fun row => !(decide (row.id ∈ ([] : List String)) &&
        row.user_id == u)) = db := by
    rw [List.filter_eq_self]
    intro a _
    simp
  have happly : syncApply u fresh now db ⟨[itm], []⟩ =
      (if ((syncLoop u now fresh [itm]
          (db.filter (fun row => !(decide (row.id ∈ ([] : List String)) &&
            row.user_id == u))) 0).map Item.id).Nodup then
        Except.ok (syncLoop u now fresh [itm]
          (db.filter (fun row => !(decide (row.id ∈ ([] : List String)) &&
            row.user_id == u))) 0)
      else Except.error ()) := rfl
  have hloop : syncLoop u now fresh [itm] db 0 =
      db.map (fun s =>
        if s.id == X && s.user_id == u then overwriteItem s itm now
        else s) := by
    simp only [syncLoop, hid]
    rw [if_neg hX]
    unfold upsertItem
    rw [hany]
    simp
  have hids : (db.map (fun s =>
      if s.id == X && s.user_id == u then overwriteItem s itm now
      else s)).map Item.id = db.map Item.id := by
    rw [List.map_map]
    refine List.map_congr_left ?_
    intro a _
    by_cases h : (a.id == X && a.user_id == u) = true
    · simp only [Function.comp_apply, if_pos h]
      rfl
    · simp only [Function.comp_apply, if_neg h]
  refine ⟨?_, ?_, ?_, rfl, rfl, rfl, rfl, rfl, rfl, rfl, rfl, rfl, rfl,
    rfl, rfl, rfl, rfl, rfl, rfl, rfl⟩
  · rw [happly, hfilter, hloop]
    refine if_pos ?_
    rw [hids]
    exact hnodup
  · refine List.mem_map.mpr ⟨r, hr, ?_⟩
    rw [if_pos]
    simp [hrid, hru]
  · intro s hs hsne
    refine List.mem_map.mpr ⟨s, hs, ?_⟩
    rw [if_neg]
    simp only [Bool.and_eq_true, beq_iff_eq]
    exact hsne

/-- C4 witness: the concrete overwrite of the stored `"X"` row. -/
theorem C4_sync_update_full_replace_witness :
    syncApply "A" exFresh 7 [exRowA] ⟨[exCreate], []⟩ =
      .ok ([exRowA].map (fun s =>
        if s.id == "X" && s.user_id == "A" then overwriteItem s exCreate 7
        else s)) ∧
    (overwriteItem exRowA exCreate 7).name = exCreate.name ∧
    (overwriteItem exRowA exCreate 7).created_at = exRowA.created_at ∧
    (overwriteItem exRowA exCreate 7).updated_at = 7 :=
  ⟨(C4_sync_update_full_replace "A" exFresh 7 [exRowA] exCreate "X" exRowA
      (by decide) (by decide) rfl rfl (by decide) rfl).1,
   (C4_sync_update_full_replace "A" exFresh 7 [exRowA] exCreate "X" exRowA
      (by decide) (by decide) rfl rfl (by decide) rfl).2.2.2.1,
   (C4_sync_update_full_replace "A" exFresh 7 [exRowA] exCreate "X" exRowA
      (by decide) (by decide) rfl rfl (by decide) rfl).2.2.2.2.2.2.2.2.2.2.2.2.2.2.1,
   (C4_sync_update_full_replace "A" exFresh 7 [exRowA] exCreate "X" exRowA
      (by decide) (by decide) rfl rfl (by decide)
      rfl).2.2.2.2.2.2.2.2.2.2.2.2.2.2.2.2.2.2.2⟩

/-- One invalid element fails the whole list validation. -/
theorem validateItems_eq_none_of_mem {raws : List RawItem} {r : RawItem}
    (hr : r ∈ raws) (hbad : validateItem r = none) :
    validateItems raws = none := by
  induction raws with
  | nil => cases hr
  | cons a as ih =>
    rcases List.mem_cons.mp hr with hre | hmem
    · unfold validateItems
      rw [← hre, hbad]
    · unfold validateItems
      cases h : validateItem a with
      | none => rfl
      | some i => rw [ih hmem]

/-- C9: sync batches are all-or-nothing. If any submitted item is
invalid the request fails validation before any database statement and
the store is unchanged; and in general the post-call store is either
exactly the prior store (validation failure, or a commit-time integrity
error rolling the transaction back) or exactly the fully merged batch
of one successful commit. -/
theorem C9_sync_batch_atomic :
    (∀ (u : String) (fresh : Nat → String) (now : Nat) (db : List Item)
        (raws : List RawItem) (deleted : List String) (r : RawItem),
      r ∈ raws → validateItem r = none →
      handleSync u fresh now db raws deleted = (.validationError, db)) ∧
    (∀ (u : String) (fresh : Nat → String) (now : Nat) (db : List Item)
        (raws : List RawItem) (deleted : List String),
      (handleSync u fresh now db raws deleted).2 = db ∨
      ∃ items db2, validateItems raws = some items ∧
        syncApply u fresh now db ⟨items, deleted⟩ = .ok db2 ∧
        (handleSync u fresh now db raws deleted).2 = db2) := by
  constructor
  · intro u fresh now db raws deleted r hr hbad
    have hv := validateItems_eq_none_of_mem hr hbad
    simp [handleSync, hv]
  · intro u fresh now db raws deleted
    cases hv : validateItems raws with
    | none => left; simp [handleSync, hv]
    | some items =>
      cases happ : syncApply u fresh now db ⟨items, deleted⟩ with
      | error e => left; simp [handleSync, hv, happ]
      | ok db2 =>
        right
        exact ⟨items, db2, rfl, happ, by simp [handleSync, hv, happ]⟩

/-- C9 witness: a batch holding one item with a bad enumeration value
leaves the store unchanged, the valid item of the same batch included. -/
theorem C9_sync_batch_atomic_witness :
    handleSync "A" exFresh 5 [exRowA] [exRaw, exBadRaw] [] =
      (.validationError, [exRowA]) ∧
    ((handleSync "A" exFresh 5 [exRowA] [exRaw] []).2 = [exRowA] ∨
      ∃ items db2, validateItems [exRaw] = some items ∧
        syncApply "A" exFresh 5 [exRowA] ⟨items, []⟩ = .ok db2 ∧
        (handleSync "A" exFresh 5 [exRowA] [exRaw] []).2 = db2) :=
  ⟨C9_sync_batch_atomic.1 "A" exFresh 5 [exRowA] [exRaw, exBadRaw] []
     exBadRaw (by decide) (by decide),
   C9_sync_batch_atomic.2 "A" exFresh 5 [exRowA] [exRaw] []⟩

/-- `find?` returns the one element that satisfies the test. -/
theorem find_eq_some_of_unique {α : Type} (p : α → Bool) (r : α) :
    ∀ l : List α, r ∈ l → p r = true → (∀ s ∈ l, p s = true → s = r) →
      l.find? p = some r := by
  intro l
  induction l with
  | nil => intro hr _ _; cases hr
  | cons a as ih =>
    intro hr hp huniq
    by_cases ha : p a = true
    · have har : a = r := huniq a (List.mem_cons_self a as) ha
      rw [List.find?_cons_of_pos _ ha, har]
    · rcases List.mem_cons.mp hr with hre | hmem
      · exact absurd (hre ▸ hp) ha
      · rw [List.find?_cons_of_neg _ ha]
        exact ih hmem hp
          (fun s hs hps => huniq s (List.mem_cons_of_mem a hs) hps)

/-- C10: a PATCH on an existing row owned by the caller modifies only
the fields present in the body — every omitted field, `is_consumed`,
`consumed_date` and `created_at` included, keeps its stored value, and
every other row is untouched — while a PATCH on an id that does not
exist under the caller answers 404 with the store unchanged. -/
theorem C10_patch_partial_update (u : String) (now : Nat) (db : List Item)
    (X : String) (d : ItemUpdate) :
    ((∀ r ∈ db, ¬(r.id = X ∧ r.user_id = u)) →
      updateGrocery u now db X d = (.notFound, db)) ∧
    (∀ r, r ∈ db → r.id = X → r.user_id = u → (db.map Item.id).Nodup →
      updateGrocery u now db X d =
        (.ok (applyUpdate r d now),
          db.map (fun s =>
            if s.id == X && s.user_id == u then applyUpdate s d now
            else s)) ∧
      (∀ s ∈ db, ¬(s.id = X ∧ s.user_id = u) →
        s ∈ db.map (fun s =>
          if s.id == X && s.user_id == u then applyUpdate s d now
          else s)) ∧
      (applyUpdate r d now).created_at = r.created_at ∧
      (d.is_consumed = none →
        (applyUpdate r d now).is_consumed = r.is_consumed) ∧
      (d.consumed_date = none →
        (applyUpdate r d now).consumed_date = r.consumed_date) ∧
      (d.name = none → (applyUpdate r d now).name = r.name) ∧
      (d.category = none → (applyUpdate r d now).category = r.category) ∧
      (d.storage_location = none →
        (applyUpdate r d now).storage_location = r.storage_location) ∧
      (d.quantity = none → (applyUpdate r d now).quantity = r.quantity) ∧
      (d.unit = none → (applyUpdate r d now).unit = r.unit) ∧
      (d.purchase_date = none →
        (applyUpdate r d now).purchase_date = r.purchase_date) ∧
      (d.expiration_date = none →
        (applyUpdate r d now).expiration_date = r.expiration_date) ∧
      (d.predicted_expiration_date = none →
        (applyUpdate r d now).predicted_expiration_date =
          r.predicted_expiration_date) ∧
      (d.confidence_score = none →
        (applyUpdate r d now).confidence_score = r.confidence_score) ∧
      (d.barcode = none → (applyUpdate r d now).barcode = r.barcode) ∧
      (d.notes = none → (applyUpdate r d now).notes = r.notes) ∧
      (∀ v, d.name = some v → (applyUpdate r d now).name = v) ∧
      (∀ v, d.quantity = some v → (applyUpdate r d now).quantity = v) ∧
      (∀ v, d.is_consumed = some v →
        (applyUpdate r d now).is_consumed = v) ∧
      (∀ v, d.consumed_date = some v →
        (applyUpdate r d now).consumed_date = v)) := by
  constructor
  · intro h
    have hf : db.find?
        (fun row => row.id == X && row.user_id == u) = none := by
      rw [List.find?_eq_none]
      intro x hx
      simp only [Bool.and_eq_true, beq_iff_eq]
      exact h x hx
    simp [updateGrocery, hf]
  · intro r hr hrid hru hnodup
    have huniq : ∀ s ∈ db,
        (s.id == X && s.user_id == u) = true → s = r := by
      intro s hs hps
      simp only [Bool.and_eq_true, beq_iff_eq] at hps
      exact List.inj_on_of_nodup_map hnodup hs hr (by rw [hps.1, hrid])
    have hf : db.find? (fun row => row.id == X && row.user_id == u) =
        some r :=
      find_eq_some_of_unique _ r db hr (by simp [hrid, hru]) huniq
    refine ⟨by simp [updateGrocery, hf], ?_, rfl, ?_, ?_, ?_, ?_, ?_, ?_,
      ?_, ?_, ?_, ?_, ?_, ?_, ?_, ?_, ?_, ?_, ?_⟩
    · intro s hs hsne
      refine List.mem_map.mpr ⟨s, hs, ?_⟩
      rw [if_neg]
      simp only [Bool.and_eq_true, beq_iff_eq]
      exact hsne
    all_goals
      first
      | (intro h; simp [applyUpdate, h])
      | (intro v h; simp [applyUpdate, h])

/-- C10 witness: a 404 on an empty store, and a one-field PATCH that
changes the name and keeps the consumption state and timestamps. -/
theorem C10_patch_partial_update_witness :
    updateGrocery "A" 9 [] "X" emptyUpdate = (.notFound, []) ∧
    updateGrocery "A" 9 [exRowA] "X"
        { emptyUpdate with name := some "Oats" } =
      (.ok (applyUpdate exRowA { emptyUpdate with name := some "Oats" } 9),
        [exRowA].map (fun s =>
          if s.id == "X" && s.user_id == "A" then
            applyUpdate s { emptyUpdate with name := some "Oats" } 9
          else s)) ∧
    (applyUpdate exRowA
        { emptyUpdate with name := some "Oats" } 9).created_at =
      exRowA.created_at ∧
    (applyUpdate exRowA
        { emptyUpdate with name := some "Oats" } 9).is_consumed =
      exRowA.is_consumed ∧
    (applyUpdate exRowA
        { emptyUpdate with name := some "Oats" } 9).name = "Oats" :=
  ⟨(C10_patch_partial_update "A" 9 [] "X" emptyUpdate).1 (by decide),
   ((C10_patch_partial_update "A" 9 [exRowA] "X"
      { emptyUpdate with name := some "Oats" }).2 exRowA (by decide) rfl
      rfl (by decide)).1,
   ((C10_patch_partial_update "A" 9 [exRowA] "X"
      { emptyUpdate with name := some "Oats" }).2 exRowA (by decide) rfl
      rfl (by decide)).2.2.1,
   ((C10_patch_partial_update "A" 9 [exRowA] "X"
      { emptyUpdate with name := some "Oats" }).2 exRowA (by decide) rfl
      rfl (by decide)).2.2.2.1 rfl,
   ((C10_patch_partial_update "A" 9 [exRowA] "X"
      { emptyUpdate with name := some "Oats" }).2 exRowA (by decide) rfl
      rfl (by decide)).2.2.2.2.2.2.2.2.2.2.2.2.2.2.2.2.1 "Oats" rfl⟩

end FoodTracker
